import Mathlib

/-!
Shallow embedding of the embedding-store / similarity-search core of the
web_chatbot repository, covering the in-memory backend
(`src/embeddings_local.py`, class `EmbeddingDatabase`) and the relational
backend (`src/embeddings.py`, class `EmbeddingDatabase`, table `documents`
from `src/models.py`).

Modelling conventions:
- The OpenAI call inside `generate_embedding` is external; the whole method
  `generate_embedding` (which either returns a vector or raises
  `EmbeddingError`) is abstracted as a function parameter `gen : GenEmbed`.
- Python floats are modelled exactly: every similarity the code computes is
  `dot / (norm_e * norm_q)` where the norms are Euclidean; it is represented
  by the pair `Sim` of the rational numerator `dot` and the rational square
  `den2` of the denominator.  `den2 = 0` is the `0.0/0.0 = NaN` case (a zero
  denominator forces a zero numerator here, see `dotQ_eq_zero_left`).
  The comparator `Sim.le` decides the float comparison exactly on this
  representation (`Sim.le_iff_real`), with NaN largest, the order numpy
  sorts use for NaN.
- `np.argsort` (default introsort) is deterministic and, on the small
  arrays of this corpus, degenerates to a stable insertion sort; Python
  `list.sort` is stable by specification.  Both are modelled by a stable
  insertion sort on the exact similarity values.
- Python list slicing `l[-k:]` and `l[:k]` is modelled by `pySliceFrom`
  and `pySliceTo` with full negative-index semantics.
-/

namespace WebChatbot

/-- Modelled from the spec: `utils/exceptions.py` is imported by the code but
missing from the sources; per the spec error taxonomy (§7), `EmbeddingError`
is an exception carrying a message string. -/
inductive PyErr where
  | embeddingError (msg : String)
deriving DecidableEq, Repr

/-- The `str(e)` of an `EmbeddingError`: its message. -/
def PyErr.msg : PyErr → String
  | .embeddingError m => m

/-- The abstracted `generate_embedding` method: maps a text to a vector or
raises `EmbeddingError`. -/
abbrev GenEmbed := String → Except PyErr (List ℚ)

/-- One element of a SourceRecord `links` list: `{"text": ..., "url": ...}`. -/
structure Link where
  text : String
  url : String
deriving DecidableEq, Repr

/-- A SourceRecord entry (a JSON object); `none` models an absent key. -/
structure Entry where
  title : Option String
  content : Option String
  links : Option (List Link)
deriving DecidableEq, Repr

/-- `EmbeddingDatabase._validate_entry` (embeddings_local.py:30-32):
`any(key in entry for key in ["title", "content", "links"])`. -/
def validateEntry (entry : Entry) : Bool :=
  entry.title.isSome || entry.content.isSome || entry.links.isSome

/-- Sum of squares of a vector: the square of `np.linalg.norm(v)`. -/
def sumSq (v : List ℚ) : ℚ :=
  (v.map (fun x => x * x)).sum

/-- `np.dot` of two vectors (componentwise product summed). -/
def dotQ (a b : List ℚ) : ℚ :=
  (List.zipWith (fun x y => x * y) a b).sum

/-- The exact value of one float similarity `dot / (norm_e * norm_q)`:
the numerator `dot` and the square `den2` of the denominator.
`den2 = 0` represents the NaN produced by `0.0 / 0.0`. -/
structure Sim where
  dot : ℚ
  den2 : ℚ
deriving DecidableEq, Repr

/-- The similarity is the undefined `0.0/0.0 = NaN` float. -/
def Sim.isNaN (s : Sim) : Bool :=
  decide (s.den2 = 0)

/-- Exact decision of the float comparison `s ≤ t` on the `(dot, den2)`
representation (see `Sim.le_iff_real` for the bridge to the real values);
NaN compares as the largest element, the position numpy sorting gives NaN. -/
def Sim.le (s t : Sim) : Bool :=
  if t.den2 ≤ 0 then true
  else if s.den2 ≤ 0 then false
  else if 0 < s.dot then
    if t.dot ≤ 0 then false
    else decide (s.dot * s.dot * t.den2 ≤ t.dot * t.dot * s.den2)
  else if 0 ≤ t.dot then true
  else decide (t.dot * t.dot * s.den2 ≤ s.dot * s.dot * t.den2)

/-- Ordering on similarity values as a decidable relation. -/
def simRel (s t : Sim) : Prop :=
  Sim.le s t = true

instance : DecidableRel simRel :=
  fun s t => instDecidableEqBool (Sim.le s t) true

/-- `np.argsort(similarities)` (embeddings_local.py:159): the indices of the
similarity array sorted by ascending similarity, modelled as a stable sort
(numpy argsort is deterministic, and a stable insertion sort on arrays of
fewer than 16 elements). -/
def argsort (sims : List Sim) : List ℕ :=
  List.insertionSort (fun i j => simRel (sims.getD i ⟨0, 0⟩) (sims.getD j ⟨0, 0⟩))
    (List.range sims.length)

/-- Python slice `l[s:]` with full negative-index semantics. -/
def pySliceFrom {α : Type} (l : List α) (s : ℤ) : List α :=
  if s < 0 then l.drop ((l.length + s).toNat) else l.drop s.toNat

/-- Python slice `l[:e]` with full negative-index semantics. -/
def pySliceTo {α : Type} (l : List α) (e : ℤ) : List α :=
  if e < 0 then l.take ((l.length + e).toNat) else l.take e.toNat

/-- `settings.TOP_K_RESULTS` (settings.py:27). -/
def TOP_K_RESULTS : ℤ := 3

/-- The in-memory store of `embeddings_local.EmbeddingDatabase`: the three
parallel lists plus the model identifier. -/
structure LocalDB where
  embeddings : List (List ℚ)
  texts : List String
  urls : List String
  model : String
deriving DecidableEq, Repr

/-- `_reset_database` (embeddings_local.py:24-28). -/
def LocalDB.resetDatabase (db : LocalDB) : LocalDB :=
  { db with embeddings := [], texts := [], urls := [] }

/-- The three `append` calls done for one sub-field of an entry
(embeddings_local.py:74-76, 80-82, 87-89). -/
def LocalDB.append1 (db : LocalDB) (emb : List ℚ) (text url : String) : LocalDB :=
  { db with
    embeddings := db.embeddings ++ [emb]
    texts := db.texts ++ [text]
    urls := db.urls ++ [url] }

/-- The `(text, url)` pairs a record expands to, in processing order:
title (url `""`), content (url `""`), then each link (embeddings_local.py
and embeddings.py process in this order). -/
def entryFields (entry : Entry) : List (String × String) :=
  (match entry.title with
   | some t => [(t, "")]
   | none => []) ++
  (match entry.content with
   | some c => [(c, "")]
   | none => []) ++
  (match entry.links with
   | some ls => ls.map (fun l => (l.text, l.url))
   | none => [])

/-- The sequential embed-and-append loop of `_process_entry`
(embeddings_local.py:69-93): each sub-field is embedded then appended; a
failing embed call raises, leaving the already appended fragments in place,
wrapped as EmbeddingError("Entry processing failed: ..."). -/
def appendFields (gen : GenEmbed) : List (String × String) → LocalDB → LocalDB × Option PyErr
  | [], db => (db, none)
  | f :: rest, db =>
    match gen f.1 with
    | .error e => (db, some (PyErr.embeddingError ("Entry processing failed: " ++ e.msg)))
    | .ok emb => appendFields gen rest (db.append1 emb f.1 f.2)

/-- `_process_entry` of the in-memory backend (embeddings_local.py:69-93). -/
def localProcessEntry (gen : GenEmbed) (entry : Entry) (db : LocalDB) : LocalDB × Option PyErr :=
  appendFields gen (entryFields entry) db

/-- The entry loop of `build_from_json` (embeddings_local.py:59-63): valid
entries are processed, invalid ones are skipped with a logged warning; an
error escaping `_process_entry` aborts the loop and is wrapped by the outer
handler as EmbeddingError("Database building failed: ..."). -/
def buildLoop (gen : GenEmbed) : List Entry → LocalDB → LocalDB × Option PyErr
  | [], db => (db, none)
  | entry :: rest, db =>
    if validateEntry entry then
      match localProcessEntry gen entry db with
      | (db1, none) => buildLoop gen rest db1
      | (db1, some e) =>
        (db1, some (PyErr.embeddingError ("Database building failed: " ++ e.msg)))
    else buildLoop gen rest db

/-- `build_from_json` (embeddings_local.py:43-67): resets the store, then
runs the entry loop (file loading is I/O, abstracted to the entry list). -/
def buildFromJson (gen : GenEmbed) (entries : List Entry) (db : LocalDB) :
    LocalDB × Option PyErr :=
  buildLoop gen entries db.resetDatabase

/-- The pickled payload written by `save_database` (embeddings_local.py:104-112):
the dict with keys embeddings, texts, urls, model.  `model` is `Option` so
that `load_database` can model `data.get("model", self.model)`. -/
structure SavedData where
  embeddings : List (List ℚ)
  texts : List String
  urls : List String
  model : Option String
deriving DecidableEq, Repr

/-- `save_database` (embeddings_local.py:95-117): serializes the three lists
and the model identifier (pickling is modelled as the identity). -/
def saveDatabase (db : LocalDB) : SavedData :=
  ⟨db.embeddings, db.texts, db.urls, some db.model⟩

/-- `load_database` (embeddings_local.py:119-137): replaces the three lists,
and the model via `data.get("model", self.model)`. -/
def loadDatabase (data : SavedData) (db : LocalDB) : LocalDB :=
  { embeddings := data.embeddings
    texts := data.texts
    urls := data.urls
    model := data.model.getD db.model }

/-- One returned search result `{"text": ..., "url": ..., "similarity": ...}`. -/
structure SearchResult where
  text : String
  url : String
  similarity : Sim
deriving DecidableEq, Repr

/-- The vectorized similarity row (embeddings_local.py:152-157):
`np.dot(self.embeddings, query) / (np.linalg.norm(self.embeddings, axis=1) * np.linalg.norm(query))`,
elementwise per stored embedding. -/
def localSims (embs : List (List ℚ)) (q : List ℚ) : List Sim :=
  embs.map (fun e => ⟨dotQ e q, sumSq e * sumSq q⟩)

/-- `np.argsort(similarities)[-top_k:][::-1]` (embeddings_local.py:159). -/
def localTopIdx (sims : List Sim) (k : ℤ) : List ℕ :=
  (pySliceFrom (argsort sims) (-k)).reverse

/-- `find_most_similar` of the in-memory backend (embeddings_local.py:139-175).
Exceptions escaping the body are re-wrapped by the outer handler as
EmbeddingError("Search operation failed: ...").  Indexing `self.texts[idx]` /
`self.urls[idx]` out of range would raise an IndexError, wrapped the same
way. -/
def localFindMostSimilar (gen : GenEmbed) (query : String) (topK : Option ℤ)
    (db : LocalDB) : Except PyErr (List SearchResult) :=
  if db.embeddings.isEmpty then
    .error (.embeddingError "Search operation failed: Database is empty")
  else
    match gen query with
    | .error e => .error (.embeddingError ("Search operation failed: " ++ e.msg))
    | .ok q =>
      if (localTopIdx (localSims db.embeddings q) (topK.getD TOP_K_RESULTS)).all
          (fun i => decide (i < db.texts.length) && decide (i < db.urls.length)) then
        .ok ((localTopIdx (localSims db.embeddings q) (topK.getD TOP_K_RESULTS)).map
          (fun i => ⟨db.texts.getD i "", db.urls.getD i "",
                     (localSims db.embeddings q).getD i ⟨0, 0⟩⟩))
      else
        .error (.embeddingError "Search operation failed: list index out of range")

/-- A row of the `documents` table (models.py:9-16); the surrogate id is
positional. -/
structure Document where
  text : String
  url : String
  embedding : List ℚ
  doc_type : String
deriving DecidableEq, Repr

/-- The `(text, url, doc_type)` triples a record expands to in the relational
backend `_process_entry` (embeddings.py:52-91), in build order. -/
def relEntryFields (entry : Entry) : List (String × String × String) :=
  (match entry.title with
   | some t => [(t, "", "title")]
   | none => []) ++
  (match entry.content with
   | some c => [(c, "", "content")]
   | none => []) ++
  (match entry.links with
   | some ls => ls.map (fun l => (l.text, l.url, "link"))
   | none => [])

/-- The document-building loop of the relational `_process_entry`
(embeddings.py:55-83): embeds each sub-field in order, collecting `Document`
rows; the first failing embed call aborts. -/
def entryDocs (gen : GenEmbed) : List (String × String × String) → Except PyErr (List Document)
  | [] => .ok []
  | f :: rest =>
    match gen f.1 with
    | .error e => .error e
    | .ok emb =>
      match entryDocs gen rest with
      | .error e => .error e
      | .ok ds => .ok (Document.mk f.1 f.2.1 emb f.2.2 :: ds)

/-- `_process_entry` of the relational backend (embeddings.py:52-91):
on success the batch is committed (appended); on failure the transaction is
rolled back, leaving the table unchanged, and the error is wrapped. -/
def relProcessEntry (gen : GenEmbed) (entry : Entry) (docs : List Document) :
    List Document × Option PyErr :=
  match entryDocs gen (relEntryFields entry) with
  | .ok ds => (docs ++ ds, none)
  | .error e => (docs, some (PyErr.embeddingError ("Entry processing failed: " ++ e.msg)))

/-- The per-document similarity loop (embeddings.py:105-111):
`np.dot(query_embedding, doc_embedding) / (norm(query) * norm(doc))`. -/
def relSims (q : List ℚ) (docs : List Document) : List (Document × Sim) :=
  docs.map (fun d => (d, ⟨dotQ q d.embedding, sumSq q * sumSq d.embedding⟩))

/-- Descending-by-similarity order on scored documents, as sorted by
`similarities.sort(key=lambda x: x[1], reverse=True)` (embeddings.py:114). -/
def relSortRel (a b : Document × Sim) : Prop :=
  Sim.le b.2 a.2 = true

instance : DecidableRel relSortRel :=
  fun a b => instDecidableEqBool (Sim.le b.2 a.2) true

/-- `find_most_similar` of the relational backend (embeddings.py:93-128):
no empty-store check; all rows are scored, stably sorted descending
(Python list.sort is stable), sliced to `[:top_k]`, and returned. -/
def relFindMostSimilar (gen : GenEmbed) (query : String) (topK : Option ℤ)
    (docs : List Document) : Except PyErr (List SearchResult) :=
  match gen query with
  | .error e => .error (.embeddingError ("Search operation failed: " ++ e.msg))
  | .ok q =>
    .ok ((pySliceTo (List.insertionSort relSortRel (relSims q docs))
           (topK.getD TOP_K_RESULTS)).map
      (fun p => ⟨p.1.text, p.1.url, p.2⟩))

/-! ### Properties of the exact float-comparison on similarity values -/

/-- Bridge between the executable comparator and the real similarity values
it decides: for defined (positive-denominator-square) similarities, `Sim.le`
is exactly the comparison of `dot / sqrt den2`. -/
theorem Sim.le_iff_real (s t : Sim) (hs : 0 < s.den2) (ht : 0 < t.den2) :
    Sim.le s t = true ↔
      (s.dot : ℝ) / Real.sqrt (s.den2 : ℝ) ≤ (t.dot : ℝ) / Real.sqrt (t.den2 : ℝ) := by
  have hsR : (0:ℝ) < (s.den2 : ℝ) := by exact_mod_cast hs
  have htR : (0:ℝ) < (t.den2 : ℝ) := by exact_mod_cast ht
  have hsq : (0:ℝ) < Real.sqrt (s.den2 : ℝ) := Real.sqrt_pos.mpr hsR
  have htq : (0:ℝ) < Real.sqrt (t.den2 : ℝ) := Real.sqrt_pos.mpr htR
  have hsq2 : Real.sqrt (s.den2 : ℝ) * Real.sqrt (s.den2 : ℝ) = (s.den2 : ℝ) :=
    Real.mul_self_sqrt hsR.le
  have htq2 : Real.sqrt (t.den2 : ℝ) * Real.sqrt (t.den2 : ℝ) = (t.den2 : ℝ) :=
    Real.mul_self_sqrt htR.le
  rw [div_le_div_iff₀ hsq htq]
  unfold Sim.le
  rw [if_neg (not_le.mpr ht), if_neg (not_le.mpr hs)]
  by_cases hsd : 0 < s.dot
  · rw [if_pos hsd]
    by_cases htd : t.dot ≤ 0
    · rw [if_pos htd]
      simp only [Bool.false_eq_true, false_iff, not_le]
      have h1 : (t.dot : ℝ) ≤ 0 := by exact_mod_cast htd
      have h2 : (0:ℝ) < (s.dot : ℝ) := by exact_mod_cast hsd
      nlinarith [mul_pos h2 htq, mul_nonpos_of_nonpos_of_nonneg h1 hsq.le]
    · rw [if_neg htd]
      push_neg at htd
      have h2 : (0:ℝ) < (s.dot : ℝ) := by exact_mod_cast hsd
      have h3 : (0:ℝ) < (t.dot : ℝ) := by exact_mod_cast htd
      simp only [decide_eq_true_eq]
      constructor
      · intro h
        have hR : (s.dot:ℝ) * (s.dot:ℝ) * (t.den2:ℝ) ≤ (t.dot:ℝ) * (t.dot:ℝ) * (s.den2:ℝ) := by
          exact_mod_cast h
        nlinarith [mul_pos h2 htq, mul_pos h3 hsq, hsq2, htq2]
      · intro h
        have hR : (s.dot:ℝ) * (s.dot:ℝ) * (t.den2:ℝ) ≤ (t.dot:ℝ) * (t.dot:ℝ) * (s.den2:ℝ) := by
          nlinarith [mul_pos h2 htq, mul_pos h3 hsq, hsq2, htq2]
        exact_mod_cast hR
  · rw [if_neg hsd]
    push_neg at hsd
    have h2 : (s.dot : ℝ) ≤ 0 := by exact_mod_cast hsd
    by_cases htd : 0 ≤ t.dot
    · rw [if_pos htd]
      simp only [true_iff]
      have h3 : (0:ℝ) ≤ (t.dot : ℝ) := by exact_mod_cast htd
      have h4 : (s.dot:ℝ) * Real.sqrt (t.den2:ℝ) ≤ 0 :=
        mul_nonpos_of_nonpos_of_nonneg h2 htq.le
      have h5 : (0:ℝ) ≤ (t.dot:ℝ) * Real.sqrt (s.den2:ℝ) := mul_nonneg h3 hsq.le
      linarith
    · rw [if_neg htd]
      push_neg at htd
      have h3 : (t.dot : ℝ) < 0 := by exact_mod_cast htd
      simp only [decide_eq_true_eq]
      constructor
      · intro h
        have hR : (t.dot:ℝ) * (t.dot:ℝ) * (s.den2:ℝ) ≤ (s.dot:ℝ) * (s.dot:ℝ) * (t.den2:ℝ) := by
          exact_mod_cast h
        nlinarith [mul_neg_of_neg_of_pos h3 hsq, mul_nonpos_of_nonpos_of_nonneg h2 htq.le,
          hsq2, htq2]
      · intro h
        have hR : (t.dot:ℝ) * (t.dot:ℝ) * (s.den2:ℝ) ≤ (s.dot:ℝ) * (s.dot:ℝ) * (t.den2:ℝ) := by
          nlinarith [mul_neg_of_neg_of_pos h3 hsq, mul_nonpos_of_nonpos_of_nonneg h2 htq.le,
            hsq2, htq2]
        exact_mod_cast hR

/-- A defined similarity is never below an undefined (NaN) one. -/
theorem Sim.den2_pos_of_le {s t : Sim} (h : Sim.le s t = true) (ht : 0 < t.den2) :
    0 < s.den2 := by
  by_contra hs
  push_neg at hs
  unfold Sim.le at h
  rw [if_neg (not_le.mpr ht), if_pos hs] at h
  exact Bool.false_ne_true h

/-- The float comparison is total (NaN included, as numpy sorts it). -/
theorem Sim.leTotal (s t : Sim) : Sim.le s t = true ∨ Sim.le t s = true := by
  rcases le_or_lt t.den2 0 with ht | ht
  · left
    unfold Sim.le
    rw [if_pos ht]
  · rcases le_or_lt s.den2 0 with hs | hs
    · right
      unfold Sim.le
      rw [if_pos hs]
    · rw [Sim.le_iff_real s t hs ht, Sim.le_iff_real t s ht hs]
      exact le_total _ _

/-- The float comparison is transitive (NaN included). -/
theorem Sim.leTrans {s t u : Sim} (h1 : Sim.le s t = true) (h2 : Sim.le t u = true) :
    Sim.le s u = true := by
  rcases le_or_lt u.den2 0 with hu | hu
  · unfold Sim.le
    rw [if_pos hu]
  · have htp : 0 < t.den2 := Sim.den2_pos_of_le h2 hu
    have hsp : 0 < s.den2 := Sim.den2_pos_of_le h1 htp
    rw [Sim.le_iff_real s t hsp htp] at h1
    rw [Sim.le_iff_real t u htp hu] at h2
    rw [Sim.le_iff_real s u hsp hu]
    exact le_trans h1 h2

/-- The float comparison is reflexive. -/
theorem Sim.leRefl (s : Sim) : Sim.le s s = true :=
  (Sim.leTotal s s).elim id id

instance : IsTotal Sim simRel :=
  ⟨fun s t => Sim.leTotal s t⟩

instance : IsTrans Sim simRel :=
  ⟨fun _ _ _ h1 h2 => Sim.leTrans h1 h2⟩

instance : IsTotal (Document × Sim) relSortRel :=
  ⟨fun a b => (Sim.leTotal a.2 b.2).symm⟩

instance : IsTrans (Document × Sim) relSortRel :=
  ⟨fun _ _ _ h1 h2 => Sim.leTrans h2 h1⟩

/-! ### Arithmetic facts about the similarity numerators and denominators -/

theorem sumSq_cons (x : ℚ) (xs : List ℚ) : sumSq (x :: xs) = x * x + sumSq xs := by
  simp [sumSq]

theorem sumSq_nonneg (v : List ℚ) : 0 ≤ sumSq v := by
  induction v with
  | nil => simp [sumSq]
  | cons x xs ih =>
    rw [sumSq_cons]
    nlinarith [mul_self_nonneg x]

theorem eq_zero_of_sumSq_eq_zero {v : List ℚ} (h : sumSq v = 0) : ∀ x ∈ v, x = 0 := by
  induction v with
  | nil => intro x hx; cases hx
  | cons y ys ih =>
    rw [sumSq_cons] at h
    have hy : y * y = 0 ∧ sumSq ys = 0 := by
      constructor <;> nlinarith [mul_self_nonneg y, sumSq_nonneg ys]
    intro x hx
    rcases List.mem_cons.mp hx with hx | hx
    · subst hx
      exact mul_self_eq_zero.mp hy.1
    · exact ih hy.2 x hx

/-- A zero-norm left vector makes the dot product zero: the division in the
similarity formula is then exactly `0.0 / 0.0`. -/
theorem dotQ_eq_zero_left {a : List ℚ} (b : List ℚ) (h : sumSq a = 0) : dotQ a b = 0 := by
  induction a generalizing b with
  | nil => simp [dotQ]
  | cons x xs ih =>
    cases b with
    | nil => simp [dotQ]
    | cons y ys =>
      rw [sumSq_cons] at h
      have hx : x = 0 := eq_zero_of_sumSq_eq_zero (v := x :: xs) (by rw [sumSq_cons]; exact h)
        x (List.mem_cons_self x xs)
      have hxs : sumSq xs = 0 := by nlinarith [mul_self_nonneg x, sumSq_nonneg xs]
      have := ih ys hxs
      simp [dotQ, List.zipWith] at this ⊢
      rw [hx, this]
      ring

/-- A zero-norm right vector makes the dot product zero. -/
theorem dotQ_eq_zero_right (a : List ℚ) {b : List ℚ} (h : sumSq b = 0) : dotQ a b = 0 := by
  induction a generalizing b with
  | nil => simp [dotQ]
  | cons x xs ih =>
    cases b with
    | nil => simp [dotQ]
    | cons y ys =>
      rw [sumSq_cons] at h
      have hy : y = 0 := eq_zero_of_sumSq_eq_zero (v := y :: ys) (by rw [sumSq_cons]; exact h)
        y (List.mem_cons_self y ys)
      have hys : sumSq ys = 0 := by nlinarith [mul_self_nonneg y, sumSq_nonneg ys]
      have := ih hys
      simp [dotQ, List.zipWith] at this ⊢
      rw [hy, this]
      ring

/-- Cauchy-Schwarz for the truncating dot product: the square of a similarity
numerator never exceeds the square of its denominator. -/
theorem dotQ_sq_le (a b : List ℚ) : dotQ a b ^ 2 ≤ sumSq a * sumSq b := by
  induction a generalizing b with
  | nil =>
    simp [dotQ, sumSq]
  | cons x xs ih =>
    cases b with
    | nil =>
      simp [dotQ, sumSq]
    | cons y ys =>
      have hA : 0 ≤ sumSq xs := sumSq_nonneg xs
      have hB : 0 ≤ sumSq ys := sumSq_nonneg ys
      have hd : dotQ xs ys ^ 2 ≤ sumSq xs * sumSq ys := ih ys
      have hstep : dotQ ((x :: xs)) ((y :: ys)) = x * y + dotQ xs ys := by
        simp [dotQ, List.zipWith]
      rw [hstep, sumSq_cons, sumSq_cons]
      set d := dotQ xs ys
      set A := sumSq xs
      set B := sumSq ys
      rcases le_or_lt (x * y * d) 0 with hneg | hpos
      · nlinarith [mul_nonneg (sq_nonneg x) hB, mul_nonneg hA (sq_nonneg y), sq_nonneg (x * y)]
      · have h3 : (2 * (x * y * d)) ^ 2 ≤ (x * x * B + A * (y * y)) ^ 2 := by
          nlinarith [sq_nonneg (x * x * B - A * (y * y)),
            mul_nonneg (mul_nonneg (sq_nonneg x) (sq_nonneg y)) (sub_nonneg.mpr hd)]
        have hs : (0:ℚ) ≤ x * x * B + A * (y * y) :=
          add_nonneg (mul_nonneg (mul_self_nonneg x) hB) (mul_nonneg hA (mul_self_nonneg y))
        have h4 : 2 * (x * y * d) ≤ x * x * B + A * (y * y) := by nlinarith [h3, hs, hpos]
        nlinarith [h4, hd]

/-- A defined similarity whose numerator-square is bounded by its
denominator-square has its real value in [-1, 1]. -/
theorem div_sqrt_mem_range {d n : ℚ} (hn : 0 < n) (h : d ^ 2 ≤ n) :
    -1 ≤ (d : ℝ) / Real.sqrt (n : ℝ) ∧ (d : ℝ) / Real.sqrt (n : ℝ) ≤ 1 := by
  have hnR : (0:ℝ) < (n : ℝ) := by exact_mod_cast hn
  have hsq : (0:ℝ) < Real.sqrt (n : ℝ) := Real.sqrt_pos.mpr hnR
  have hdR : ((d : ℝ)) ^ 2 ≤ (n : ℝ) := by exact_mod_cast h
  have habs : |(d : ℝ)| ≤ Real.sqrt (n : ℝ) := by
    rw [← Real.sqrt_sq_eq_abs]
    exact Real.sqrt_le_sqrt hdR
  rcases abs_le.mp habs with ⟨h1, h2⟩
  constructor
  · rw [le_div_iff₀ hsq]
    linarith
  · rw [div_le_one hsq]
    exact h2

/-! ### Structure of the ranking pipeline -/

/-- The slice `l[s:]` is a suffix, hence a sublist. -/
theorem pySliceFrom_sublist {α : Type} (l : List α) (s : ℤ) : (pySliceFrom l s).Sublist l := by
  unfold pySliceFrom
  split <;> exact List.drop_sublist _ _

/-- The slice `l[:e]` is, well, a sublist. -/
theorem pySliceTo_sublist {α : Type} (l : List α) (e : ℤ) : (pySliceTo l e).Sublist l := by
  unfold pySliceTo
  split <;> exact List.take_sublist _ _

/-- The argsorted index list is ascending in similarity. -/
theorem argsort_sorted (sims : List Sim) :
    List.Pairwise
      (fun i j => Sim.le (sims.getD i ⟨0, 0⟩) (sims.getD j ⟨0, 0⟩) = true)
      (argsort sims) := by
  haveI : IsTotal ℕ (fun i j => simRel (sims.getD i ⟨0, 0⟩) (sims.getD j ⟨0, 0⟩)) :=
    ⟨fun i j => Sim.leTotal _ _⟩
  haveI : IsTrans ℕ (fun i j => simRel (sims.getD i ⟨0, 0⟩) (sims.getD j ⟨0, 0⟩)) :=
    ⟨fun _ _ _ h1 h2 => Sim.leTrans h1 h2⟩
  exact List.sorted_insertionSort
    (fun i j => simRel (sims.getD i ⟨0, 0⟩) (sims.getD j ⟨0, 0⟩)) (List.range sims.length)

/-- The argsorted index list is a permutation of `range`. -/
theorem argsort_perm (sims : List Sim) : (argsort sims).Perm (List.range sims.length) :=
  List.perm_insertionSort _ _

/-- `np.argsort(similarities)[-top_k:][::-1]` is descending in similarity. -/
theorem localTopIdx_sorted (sims : List Sim) (k : ℤ) :
    List.Pairwise
      (fun i j => Sim.le (sims.getD j ⟨0, 0⟩) (sims.getD i ⟨0, 0⟩) = true)
      (localTopIdx sims k) := by
  unfold localTopIdx
  rw [List.pairwise_reverse]
  exact (argsort_sorted sims).sublist (pySliceFrom_sublist _ _)

/-- A successful in-memory search returns results in descending similarity
order. -/
theorem localFind_ok_pairwise {gen : GenEmbed} {query : String} {topK : Option ℤ}
    {db : LocalDB} {rs : List SearchResult}
    (h : localFindMostSimilar gen query topK db = .ok rs) :
    List.Pairwise (fun a b : SearchResult => Sim.le b.similarity a.similarity = true) rs := by
  unfold localFindMostSimilar at h
  split at h
  · exact absurd h (by simp)
  · split at h
    · exact absurd h (by simp)
    · split at h
      · rw [Except.ok.injEq] at h
        subst h
        rw [List.pairwise_map]
        exact localTopIdx_sorted _ _
      · exact absurd h (by simp)

/-- A successful relational search returns results in descending similarity
order. -/
theorem relFind_ok_pairwise {gen : GenEmbed} {query : String} {topK : Option ℤ}
    {docs : List Document} {rs : List SearchResult}
    (h : relFindMostSimilar gen query topK docs = .ok rs) :
    List.Pairwise (fun a b : SearchResult => Sim.le b.similarity a.similarity = true) rs := by
  unfold relFindMostSimilar at h
  split at h
  · exact absurd h (by simp)
  · rw [Except.ok.injEq] at h
    subst h
    rw [List.pairwise_map]
    exact ((List.sorted_insertionSort relSortRel _).sublist (pySliceTo_sublist _ _))

/-- Stable insertion sort keeps a two-element list whose head may stay first. -/
theorem insertionSort_pair {α : Type} (r : α → α → Prop) [DecidableRel r] (a b : α)
    (h : r a b) : List.insertionSort r [a, b] = [a, b] := by
  simp [List.insertionSort, List.orderedInsert, if_pos h]

/-- Argsort on two equal similarities keeps index order (insertion order). -/
theorem argsort_two_eq (s : Sim) : argsort [s, s] = [0, 1] := by
  unfold argsort
  have h2 : List.range ([s, s] : List Sim).length = [0, 1] := rfl
  rw [h2]
  exact insertionSort_pair _ 0 1 (by simpa [simRel] using Sim.leRefl s)

/-! ### The parallel-lists alignment invariant of the in-memory store -/

/-- The three parallel lists of the in-memory store are index-aligned. -/
def aligned (db : LocalDB) : Prop :=
  db.texts.length = db.embeddings.length ∧ db.urls.length = db.embeddings.length

/-- Appending one fragment keeps the lists aligned. -/
theorem append1_aligned {db : LocalDB} (h : aligned db) (emb : List ℚ) (t u : String) :
    aligned (db.append1 emb t u) := by
  unfold aligned at h ⊢
  unfold LocalDB.append1
  simp [h.1, h.2]

/-- The embed-and-append loop keeps the lists aligned, whether or not it
fails partway through the entry. -/
theorem appendFields_aligned (gen : GenEmbed) (fs : List (String × String)) (db : LocalDB)
    (h : aligned db) : aligned (appendFields gen fs db).1 := by
  induction fs generalizing db with
  | nil => exact h
  | cons f rest ih =>
    unfold appendFields
    cases gen f.1 with
    | error e => exact h
    | ok emb => exact ih _ (append1_aligned h emb f.1 f.2)

/-- The entry loop of `build_from_json` keeps the lists aligned. -/
theorem buildLoop_aligned (gen : GenEmbed) (entries : List Entry) (db : LocalDB)
    (h : aligned db) : aligned (buildLoop gen entries db).1 := by
  induction entries generalizing db with
  | nil => exact h
  | cons entry rest ih =>
    unfold buildLoop
    split
    · rcases heq : localProcessEntry gen entry db with ⟨db1, err⟩
      have h1 : aligned db1 := by
        have := appendFields_aligned gen (entryFields entry) db h
        rw [show appendFields gen (entryFields entry) db = localProcessEntry gen entry db from rfl,
          heq] at this
        exact this
      cases err with
      | none => simpa [heq] using ih db1 h1
      | some e => simpa [heq] using h1
    · exact ih db h

/-! ### Concrete embedding oracles used as witnesses -/

instance exceptDecEq {ε α : Type} [DecidableEq ε] [DecidableEq α] : DecidableEq (Except ε α) :=
  fun x y =>
  match x, y with
  | .ok a, .ok b =>
    if h : a = b then isTrue (congrArg Except.ok h)
    else isFalse (fun hc => h (Except.ok.inj hc))
  | .error a, .error b =>
    if h : a = b then isTrue (congrArg Except.error h)
    else isFalse (fun hc => h (Except.error.inj hc))
  | .ok _, .error _ => isFalse (fun hc => Except.noConfusion hc)
  | .error _, .ok _ => isFalse (fun hc => Except.noConfusion hc)

/-- An embedding oracle that succeeds on every text with the vector `[1]`. -/
def genOne : GenEmbed := fun _ => .ok [1]

/-- An embedding oracle that succeeds on `"T"` and fails on everything else,
as an OpenAI outage mid-record would. -/
def genTC : GenEmbed := fun s => if s == "T" then .ok [1] else .error (.embeddingError "boom")

/-- Load of a saved store restores it exactly, whatever the prior state. -/
theorem save_load_eq (dbA dbB : LocalDB) : loadDatabase (saveDatabase dbA) dbB = dbA := by
  cases dbA
  simp [saveDatabase, loadDatabase]

/-! ### Claim theorems -/

/-- C1 (amended): on an empty store the in-memory backend raises
EmbeddingError — with its inner message "Database is empty" re-wrapped by
the outer handler into "Search operation failed: Database is empty" — for
every query and top_k; the relational backend has no empty-store check and
returns the empty list whenever the query embedding succeeds. -/
theorem c1_empty_store_behavior (gen : GenEmbed) :
    (∀ (query : String) (topK : Option ℤ) (db : LocalDB), db.embeddings = [] →
        localFindMostSimilar gen query topK db =
          .error (.embeddingError "Search operation failed: Database is empty"))
    ∧ (∀ (query : String) (topK : Option ℤ) (qv : List ℚ), gen query = .ok qv →
        relFindMostSimilar gen query topK [] = .ok []) := by
  constructor
  · intro query topK db h
    unfold localFindMostSimilar
    rw [if_pos (by simp [h])]
  · intro query topK qv hq
    unfold relFindMostSimilar
    rw [hq]
    simp [relSims, pySliceTo, List.insertionSort]

/-- C1 counterexample: with an empty relational store and a succeeding
embedding call, `find_most_similar` returns `[]` instead of raising. -/
theorem c1_counterexample : relFindMostSimilar genOne "query" none [] = .ok [] := by
  rfl

/-- C1 witness. -/
theorem c1_witness :
    localFindMostSimilar genOne "q" none ⟨[], [], [], "m"⟩ =
      .error (.embeddingError "Search operation failed: Database is empty") ∧
    relFindMostSimilar genOne "q" none [] = .ok [] :=
  ⟨(c1_empty_store_behavior genOne).1 "q" none ⟨[], [], [], "m"⟩ rfl,
   (c1_empty_store_behavior genOne).2 "q" none [1] rfl⟩

/-- C4: ingesting a record with title "T", content "C" and two links appends
exactly the four documents title, content, link, link in that order with
urls "", "", "u1", "u2", leaving the previously stored documents unchanged
(relational backend, the one with a doc_type column). -/
theorem c4_ingest_four_fragments (gen : GenEmbed) (store : List Document)
    (vT vC v1 v2 : List ℚ)
    (hT : gen "T" = .ok vT) (hC : gen "C" = .ok vC)
    (h1 : gen "L1" = .ok v1) (h2 : gen "L2" = .ok v2) :
    relProcessEntry gen ⟨some "T", some "C", some [⟨"L1", "u1"⟩, ⟨"L2", "u2"⟩]⟩ store =
      (store ++ [⟨"T", "", vT, "title"⟩, ⟨"C", "", vC, "content"⟩,
                 ⟨"L1", "u1", v1, "link"⟩, ⟨"L2", "u2", v2, "link"⟩], none) := by
  simp [relProcessEntry, relEntryFields, entryDocs, hT, hC, h1, h2]

/-- C4 witness. -/
theorem c4_witness :
    relProcessEntry genOne ⟨some "T", some "C", some [⟨"L1", "u1"⟩, ⟨"L2", "u2"⟩]⟩
        [⟨"old", "", [2], "title"⟩] =
      ([⟨"old", "", [2], "title"⟩] ++
        [⟨"T", "", [1], "title"⟩, ⟨"C", "", [1], "content"⟩,
         ⟨"L1", "u1", [1], "link"⟩, ⟨"L2", "u2", [1], "link"⟩], none) :=
  c4_ingest_four_fragments genOne [⟨"old", "", [2], "title"⟩] [1] [1] [1] [1] rfl rfl rfl rfl

/-- C5 (amended): the relational backend is atomic — an embedding failure on
any sub-field rolls the transaction back and leaves the table unchanged —
but the in-memory backend keeps the fragments appended for the sub-fields
embedded before the failure: with a title that embeds and a content whose
embedding fails, the store gains exactly the title fragment. -/
theorem c5_atomicity_contrast :
    (∀ (gen : GenEmbed) (entry : Entry) (docs docs1 : List Document) (e : PyErr),
        relProcessEntry gen entry docs = (docs1, some e) → docs1 = docs)
    ∧ (∀ (gen : GenEmbed) (db : LocalDB) (t c : String) (vt : List ℚ) (er : PyErr),
        gen t = .ok vt → gen c = .error er →
        localProcessEntry gen ⟨some t, some c, none⟩ db =
          (db.append1 vt t "",
           some (.embeddingError ("Entry processing failed: " ++ er.msg)))) := by
  constructor
  · intro gen entry docs docs1 e h
    unfold relProcessEntry at h
    split at h
    · simp at h
    · rw [Prod.mk.injEq] at h
      exact h.1.symm
  · intro gen db t c vt er h1 h2
    simp [localProcessEntry, entryFields, appendFields, h1, h2]

/-- C5 counterexample: an embedding failure on the content sub-field leaves
the already-appended title fragment of the same record in the in-memory
store — the record's ingestion is not atomic there. -/
theorem c5_counterexample :
    localProcessEntry genTC ⟨some "T", some "C", none⟩ ⟨[], [], [], "m"⟩ =
      (⟨[[1]], ["T"], [""], "m"⟩, some (.embeddingError "Entry processing failed: boom")) := by
  rfl

/-- C5 witness. -/
theorem c5_witness :
    ([⟨"x", "y", [2], "title"⟩] : List Document) = [⟨"x", "y", [2], "title"⟩] ∧
    localProcessEntry genTC ⟨some "T", some "C", none⟩ ⟨[], [], [], "m"⟩ =
      ((⟨[], [], [], "m"⟩ : LocalDB).append1 [1] "T" "",
       some (.embeddingError ("Entry processing failed: " ++ (PyErr.embeddingError "boom").msg))) :=
  ⟨c5_atomicity_contrast.1 genTC ⟨some "C", none, none⟩ [⟨"x", "y", [2], "title"⟩]
      [⟨"x", "y", [2], "title"⟩] (.embeddingError "Entry processing failed: boom") rfl,
   c5_atomicity_contrast.2 genTC ⟨[], [], [], "m"⟩ "T" "C" [1] (.embeddingError "boom") rfl rfl⟩

/-- C6: saving the in-memory store and loading the saved payload restores
exactly the same (text, url, embedding, model) data, in the same order,
whatever store it is loaded into. -/
theorem c6_save_load_roundtrip (dbA dbB : LocalDB) :
    loadDatabase (saveDatabase dbA) dbB = dbA :=
  save_load_eq dbA dbB

/-- C7 (amended): a record with all three keys absent is not rejected with a
ValidationError — `build_from_json` skips it with a logged warning, appends
zero fragments and raises nothing; a record whose keys are present but
empty passes validation, an empty links list contributes nothing, and empty
title/content strings are embedded as ordinary fragments. -/
theorem c7_invalid_entry_skipped :
    (∀ (gen : GenEmbed) (db : LocalDB),
        buildFromJson gen [⟨none, none, none⟩] db = (db.resetDatabase, none))
    ∧ validateEntry ⟨none, none, none⟩ = false
    ∧ validateEntry ⟨some "", some "", some []⟩ = true
    ∧ (∀ (gen : GenEmbed) (db : LocalDB) (v : List ℚ), gen "" = .ok v →
        localProcessEntry gen ⟨some "", some "", some []⟩ db =
          ((db.append1 v "" "").append1 v "" "", none)) := by
  refine ⟨?_, rfl, rfl, ?_⟩
  · intro gen db
    simp [buildFromJson, buildLoop, validateEntry]
  · intro gen db v h
    simp [localProcessEntry, entryFields, appendFields, h]

/-- C7 counterexample: ingesting the record with no keys at all leaves the
(reset) store empty and reports no error whatsoever — there is no
ValidationError failure. -/
theorem c7_counterexample :
    buildFromJson genOne [⟨none, none, none⟩] ⟨[[1]], ["x"], ["y"], "m"⟩ =
      (⟨[], [], [], "m"⟩, none) := by
  rfl

/-- C7 witness. -/
theorem c7_witness :
    buildFromJson genOne [⟨none, none, none⟩] ⟨[], [], [], "q"⟩ =
      ((⟨[], [], [], "q"⟩ : LocalDB).resetDatabase, none) ∧
    localProcessEntry genOne ⟨some "", some "", some []⟩ ⟨[], [], [], "q"⟩ =
      (((⟨[], [], [], "q"⟩ : LocalDB).append1 [1] "" "").append1 [1] "" "", none) :=
  ⟨c7_invalid_entry_skipped.1 genOne ⟨[], [], [], "q"⟩,
   c7_invalid_entry_skipped.2.2.2 genOne ⟨[], [], [], "q"⟩ [1] rfl⟩

/-- C10: in-memory entry validation checks key presence only: any record
with at least one of the keys title, content, links is accepted, the record
with only an empty links list included, and ingesting the latter appends
zero fragments and raises no error. -/
theorem c10_validation_checks_presence_only :
    (∀ entry : Entry,
        entry.title.isSome = true ∨ entry.content.isSome = true ∨ entry.links.isSome = true →
        validateEntry entry = true)
    ∧ validateEntry ⟨none, none, some []⟩ = true
    ∧ (∀ (gen : GenEmbed) (db : LocalDB),
        localProcessEntry gen ⟨none, none, some []⟩ db = (db, none)) := by
  refine ⟨?_, rfl, ?_⟩
  · intro entry h
    unfold validateEntry
    rcases h with h | h | h <;> simp [h]
  · intro gen db
    rfl

/-- C10 witness. -/
theorem c10_witness :
    validateEntry ⟨none, none, some []⟩ = true ∧
    localProcessEntry genOne ⟨none, none, some []⟩ ⟨[], [], [], "m"⟩ =
      (⟨[], [], [], "m"⟩, none) :=
  ⟨c10_validation_checks_presence_only.1 ⟨none, none, some []⟩ (Or.inr (Or.inr rfl)),
   c10_validation_checks_presence_only.2.2 genOne ⟨[], [], [], "m"⟩⟩

/-- C8 (amended): neither backend validates top_k. With top_k = 0 the
in-memory slice `[-0:]` selects the whole argsorted array, so the search
succeeds and returns every fragment of the store ranked descending; the
relational slice `[:0]` makes the search succeed with the empty list. No
validation error is raised in either backend. -/
theorem c8_topk_not_validated :
    (∀ (gen : GenEmbed) (query : String) (qv : List ℚ) (db : LocalDB),
        db.embeddings ≠ [] → gen query = .ok qv → aligned db →
        ∃ rs, localFindMostSimilar gen query (some 0) db = .ok rs ∧
              rs.length = db.embeddings.length)
    ∧ (∀ (gen : GenEmbed) (query : String) (qv : List ℚ) (docs : List Document),
        gen query = .ok qv → relFindMostSimilar gen query (some 0) docs = .ok []) := by
  constructor
  · intro gen query qv db hne hq hal
    have hemp : db.embeddings.isEmpty = false := by
      cases h : db.embeddings with
      | nil => exact absurd h hne
      | cons a l => rfl
    have hlen : (localSims db.embeddings qv).length = db.embeddings.length := by
      simp [localSims]
    have hmem : ∀ i ∈ argsort (localSims db.embeddings qv), i < db.embeddings.length := by
      intro i hi
      have h2 := (argsort_perm (localSims db.embeddings qv)).mem_iff.mp hi
      rw [List.mem_range, hlen] at h2
      exact h2
    have htop : localTopIdx (localSims db.embeddings qv) ((some (0:ℤ)).getD TOP_K_RESULTS) =
        (argsort (localSims db.embeddings qv)).reverse := by
      simp [localTopIdx, pySliceFrom]
    have hguard : ((localTopIdx (localSims db.embeddings qv) ((some (0:ℤ)).getD TOP_K_RESULTS)).all
        (fun i => decide (i < db.texts.length) && decide (i < db.urls.length))) = true := by
      rw [htop, List.all_eq_true]
      intro i hi
      rw [List.mem_reverse] at hi
      have h3 := hmem i hi
      simp [hal.1, hal.2, h3]
    refine ⟨(localTopIdx (localSims db.embeddings qv) ((some (0:ℤ)).getD TOP_K_RESULTS)).map
      (fun i => ⟨db.texts.getD i "", db.urls.getD i "",
                 (localSims db.embeddings qv).getD i ⟨0, 0⟩⟩), ?_, ?_⟩
    · unfold localFindMostSimilar
      rw [if_neg (by simp [hemp]), hq]
      dsimp only
      rw [if_pos hguard]
    · rw [List.length_map, htop, List.length_reverse]
      calc (argsort (localSims db.embeddings qv)).length
          = (List.range (localSims db.embeddings qv).length).length :=
            (argsort_perm (localSims db.embeddings qv)).length_eq
        _ = db.embeddings.length := by rw [List.length_range, hlen]
  · intro gen query qv docs hq
    unfold relFindMostSimilar
    rw [hq]
    simp [pySliceTo]

/-- C8 counterexample: the in-memory backend with top_k = 0 raises no
validation error; it returns the full ranked store. -/
theorem c8_counterexample :
    localFindMostSimilar genOne "q" (some 0) ⟨[[1]], ["A"], ["a"], "m"⟩ =
      .ok [⟨"A", "a", ⟨1, 1⟩⟩] := by
  have hsims : localSims [[1]] [1] = [⟨1, 1⟩] := by
    simp [localSims, dotQ, sumSq]
  have htop : localTopIdx (localSims [[1]] [1]) ((some (0:ℤ)).getD TOP_K_RESULTS) = [0] := by
    rw [hsims]
    unfold localTopIdx argsort
    simp [List.insertionSort, List.orderedInsert, pySliceFrom]
  unfold localFindMostSimilar
  rw [if_neg (by simp), show genOne "q" = .ok [1] from rfl]
  dsimp only
  rw [if_pos (by rw [htop]; rfl), htop, hsims]
  rfl

/-- C8 witness. -/
theorem c8_witness :
    (∃ rs, localFindMostSimilar genOne "q" (some 0) ⟨[[1]], ["A"], ["a"], "m"⟩ = .ok rs ∧
        rs.length = (⟨[[1]], ["A"], ["a"], "m"⟩ : LocalDB).embeddings.length) ∧
    relFindMostSimilar genOne "q" (some 0) [⟨"A", "a", [1], "title"⟩] = .ok [] :=
  ⟨c8_topk_not_validated.1 genOne "q" [1] ⟨[[1]], ["A"], ["a"], "m"⟩ (by decide) rfl ⟨rfl, rfl⟩,
   c8_topk_not_validated.2 genOne "q" [1] [⟨"A", "a", [1], "title"⟩] rfl⟩

/-- C9: starting from the empty (reset) store, the three parallel lists of
the in-memory store stay index-aligned under every operation: reset,
processing an entry (also one failing partway), the whole build loop, a
load of an aligned payload, and load-after-save. -/
theorem c9_parallel_lists_stay_aligned :
    (∀ db : LocalDB, aligned db.resetDatabase)
    ∧ (∀ (gen : GenEmbed) (entry : Entry) (db : LocalDB), aligned db →
        aligned (localProcessEntry gen entry db).1)
    ∧ (∀ (gen : GenEmbed) (entries : List Entry) (db : LocalDB),
        aligned (buildFromJson gen entries db).1)
    ∧ (∀ (data : SavedData) (db : LocalDB),
        data.texts.length = data.embeddings.length →
        data.urls.length = data.embeddings.length →
        aligned (loadDatabase data db))
    ∧ (∀ dbA dbB : LocalDB, aligned dbA → aligned (loadDatabase (saveDatabase dbA) dbB)) := by
  refine ⟨?_, ?_, ?_, ?_, ?_⟩
  · intro db
    exact ⟨rfl, rfl⟩
  · intro gen entry db h
    exact appendFields_aligned gen (entryFields entry) db h
  · intro gen entries db
    exact buildLoop_aligned gen entries db.resetDatabase ⟨rfl, rfl⟩
  · intro data db h1 h2
    exact ⟨h1, h2⟩
  · intro dbA dbB h
    rw [save_load_eq]
    exact h

/-- C9 witness. -/
theorem c9_witness :
    aligned (localProcessEntry genOne ⟨some "T", none, none⟩ ⟨[], [], [], "m"⟩).1 ∧
    aligned (loadDatabase (saveDatabase ⟨[[1]], ["A"], ["a"], "m"⟩) ⟨[], [], [], "x"⟩) :=
  ⟨c9_parallel_lists_stay_aligned.2.1 genOne ⟨some "T", none, none⟩ ⟨[], [], [], "m"⟩ ⟨rfl, rfl⟩,
   c9_parallel_lists_stay_aligned.2.2.2.2 ⟨[[1]], ["A"], ["a"], "m"⟩ ⟨[], [], [], "x"⟩ ⟨rfl, rfl⟩⟩

/-- C2 (amended): both backends return results sorted in descending order
of similarity, and the ranking is a deterministic function of the store and
the similarity values; but the two backends break ties differently: the
relational backend's stable descending sort keeps the earlier-inserted of
two equally-similar fragments first, while the in-memory backend (ascending
argsort, slice, reverse) returns the later-inserted one first. -/
theorem c2_ranking_descending_ties_differ :
    (∀ (gen : GenEmbed) (query : String) (topK : Option ℤ) (db : LocalDB)
        (rs : List SearchResult), localFindMostSimilar gen query topK db = .ok rs →
        List.Pairwise (fun a b : SearchResult => Sim.le b.similarity a.similarity = true) rs)
    ∧ (∀ (gen : GenEmbed) (query : String) (topK : Option ℤ) (docs : List Document)
        (rs : List SearchResult), relFindMostSimilar gen query topK docs = .ok rs →
        List.Pairwise (fun a b : SearchResult => Sim.le b.similarity a.similarity = true) rs)
    ∧ (∀ (gen : GenEmbed) (query : String) (qv v : List ℚ) (t1 u1 t2 u2 m : String),
        gen query = .ok qv →
        localFindMostSimilar gen query (some 2) ⟨[v, v], [t1, t2], [u1, u2], m⟩ =
          .ok [⟨t2, u2, ⟨dotQ v qv, sumSq v * sumSq qv⟩⟩,
               ⟨t1, u1, ⟨dotQ v qv, sumSq v * sumSq qv⟩⟩])
    ∧ (∀ (gen : GenEmbed) (query : String) (qv v : List ℚ) (t1 u1 t2 u2 d1 d2 : String),
        gen query = .ok qv →
        relFindMostSimilar gen query (some 2) [⟨t1, u1, v, d1⟩, ⟨t2, u2, v, d2⟩] =
          .ok [⟨t1, u1, ⟨dotQ qv v, sumSq qv * sumSq v⟩⟩,
               ⟨t2, u2, ⟨dotQ qv v, sumSq qv * sumSq v⟩⟩]) := by
  refine ⟨?_, ?_, ?_, ?_⟩
  · intro gen query topK db rs h
    exact localFind_ok_pairwise h
  · intro gen query topK docs rs h
    exact relFind_ok_pairwise h
  · intro gen query qv v t1 u1 t2 u2 m hq
    have hsims : localSims [v, v] qv =
        [⟨dotQ v qv, sumSq v * sumSq qv⟩, ⟨dotQ v qv, sumSq v * sumSq qv⟩] := by
      simp [localSims]
    have htop : localTopIdx (localSims [v, v] qv) ((some (2:ℤ)).getD TOP_K_RESULTS) =
        [1, 0] := by
      unfold localTopIdx
      rw [hsims, argsort_two_eq]
      rfl
    unfold localFindMostSimilar
    rw [if_neg (by simp), hq]
    dsimp only
    rw [if_pos (by rw [htop]; rfl), htop, hsims]
    rfl
  · intro gen query qv v t1 u1 t2 u2 d1 d2 hq
    have hsims : relSims qv [⟨t1, u1, v, d1⟩, ⟨t2, u2, v, d2⟩] =
        [(⟨t1, u1, v, d1⟩, ⟨dotQ qv v, sumSq qv * sumSq v⟩),
         (⟨t2, u2, v, d2⟩, ⟨dotQ qv v, sumSq qv * sumSq v⟩)] := by
      simp [relSims]
    have hsorted : List.insertionSort relSortRel (relSims qv [⟨t1, u1, v, d1⟩, ⟨t2, u2, v, d2⟩]) =
        [(⟨t1, u1, v, d1⟩, ⟨dotQ qv v, sumSq qv * sumSq v⟩),
         (⟨t2, u2, v, d2⟩, ⟨dotQ qv v, sumSq qv * sumSq v⟩)] := by
      rw [hsims]
      exact insertionSort_pair relSortRel _ _ (Sim.leRefl _)
    unfold relFindMostSimilar
    rw [hq]
    dsimp only
    rw [hsorted]
    rfl

/-- C2 counterexample: two fragments with identical embeddings (hence equal
similarity), inserted as "A" then "B": the in-memory backend returns the
later-inserted "B" first, refuting first-inserted-wins tie-breaking. -/
theorem c2_counterexample :
    localFindMostSimilar genOne "q" (some 2) ⟨[[1], [1]], ["A", "B"], ["a", "b"], "m"⟩ =
      .ok [⟨"B", "b", ⟨1, 1⟩⟩, ⟨"A", "a", ⟨1, 1⟩⟩] := by
  have hsims : localSims [[1], [1]] [1] = [⟨1, 1⟩, ⟨1, 1⟩] := by
    simp [localSims, dotQ, sumSq]
  have htop : localTopIdx (localSims [[1], [1]] [1]) ((some (2:ℤ)).getD TOP_K_RESULTS) =
      [1, 0] := by
    unfold localTopIdx
    rw [hsims, argsort_two_eq]
    rfl
  unfold localFindMostSimilar
  rw [if_neg (by simp), show genOne "q" = .ok [1] from rfl]
  dsimp only
  rw [if_pos (by rw [htop]; rfl), htop, hsims]
  rfl

/-- C2 witness. -/
theorem c2_witness :
    List.Pairwise (fun a b : SearchResult => Sim.le b.similarity a.similarity = true)
      [⟨"B", "b", ⟨dotQ [1] [1], sumSq [1] * sumSq [1]⟩⟩,
       ⟨"A", "a", ⟨dotQ [1] [1], sumSq [1] * sumSq [1]⟩⟩] ∧
    localFindMostSimilar genOne "q" (some 2) ⟨[[1], [1]], ["A", "B"], ["a", "b"], "m"⟩ =
      .ok [⟨"B", "b", ⟨dotQ [1] [1], sumSq [1] * sumSq [1]⟩⟩,
           ⟨"A", "a", ⟨dotQ [1] [1], sumSq [1] * sumSq [1]⟩⟩] ∧
    relFindMostSimilar genOne "q" (some 2) [⟨"A", "a", [1], "x"⟩, ⟨"B", "b", [1], "y"⟩] =
      .ok [⟨"A", "a", ⟨dotQ [1] [1], sumSq [1] * sumSq [1]⟩⟩,
           ⟨"B", "b", ⟨dotQ [1] [1], sumSq [1] * sumSq [1]⟩⟩] := by
  have hc := c2_ranking_descending_ties_differ.2.2.1 genOne "q" [1] [1] "A" "a" "B" "b" "m" rfl
  have ha := c2_ranking_descending_ties_differ.1 genOne "q" (some 2)
    ⟨[[1], [1]], ["A", "B"], ["a", "b"], "m"⟩ _ hc
  have hd := c2_ranking_descending_ties_differ.2.2.2 genOne "q" [1] [1] "A" "a" "B" "b" "x" "y" rfl
  exact ⟨ha, hc, hd⟩

/-- C3 (amended): every similarity the in-memory engine computes from a
fragment embedding and query of nonzero norm lies in [-1, 1] (by
Cauchy-Schwarz on its exact representation); but a zero-norm fragment
embedding (or query) is not guarded to similarity 0: its similarity is the
undefined float 0.0/0.0 (NaN), which is returned in the result list and
participates in ranking — NaN sorts last in the ascending argsort and hence
first after the final reversal, as the concrete conjunct shows. -/
theorem c3_similarity_range_and_nan :
    (∀ (embs : List (List ℚ)) (q : List ℚ) (s : Sim), s ∈ localSims embs q →
        (s.isNaN = false →
          -1 ≤ (s.dot : ℝ) / Real.sqrt (s.den2 : ℝ) ∧
          (s.dot : ℝ) / Real.sqrt (s.den2 : ℝ) ≤ 1)
        ∧ (s.isNaN = true → s.dot = 0 ∧ s.den2 = 0))
    ∧ localFindMostSimilar genOne "q" none ⟨[[1], [0]], ["A", "Z"], ["a", "z"], "m"⟩ =
        .ok [⟨"Z", "z", ⟨0, 0⟩⟩, ⟨"A", "a", ⟨1, 1⟩⟩] := by
  constructor
  · intro embs q s hs
    rcases List.mem_map.mp hs with ⟨e, he, rfl⟩
    constructor
    · intro hnan
      have hd2 : ¬ sumSq e * sumSq q = 0 := by simpa [Sim.isNaN] using hnan
      have hpos : 0 < sumSq e * sumSq q :=
        lt_of_le_of_ne (mul_nonneg (sumSq_nonneg e) (sumSq_nonneg q)) (Ne.symm hd2)
      exact div_sqrt_mem_range hpos (dotQ_sq_le e q)
    · intro hnan
      have hd2 : sumSq e * sumSq q = 0 := by simpa [Sim.isNaN] using hnan
      refine ⟨?_, hd2⟩
      rcases mul_eq_zero.mp hd2 with h | h
      · exact dotQ_eq_zero_left q h
      · exact dotQ_eq_zero_right e h
  · have hsims : localSims [[1], [0]] [1] = [⟨1, 1⟩, ⟨0, 0⟩] := by
      simp [localSims, dotQ, sumSq]
    have hsort : argsort [⟨1, 1⟩, ⟨0, 0⟩] = [0, 1] := by
      unfold argsort
      rw [show List.range ([(⟨1, 1⟩ : Sim), ⟨0, 0⟩] : List Sim).length = [0, 1] from rfl]
      refine insertionSort_pair _ 0 1 ?_
      show Sim.le _ _ = true
      simp [Sim.le]
    have htop : localTopIdx (localSims [[1], [0]] [1]) ((none : Option ℤ).getD TOP_K_RESULTS) =
        [1, 0] := by
      unfold localTopIdx
      rw [hsims, hsort]
      rfl
    unfold localFindMostSimilar
    rw [if_neg (by simp), show genOne "q" = .ok [1] from rfl]
    dsimp only
    rw [if_pos (by rw [htop]; rfl), htop, hsims]
    rfl

/-- C3 counterexample: a store whose only fragment has the zero-norm
embedding [0]: the returned similarity is the NaN representation (denominator
square 0), not the number 0 — NaN does appear in a result. -/
theorem c3_counterexample :
    localFindMostSimilar genOne "q" none ⟨[[0]], ["Z"], [""], "m"⟩ =
      .ok [⟨"Z", "", ⟨0, 0⟩⟩] ∧ Sim.isNaN ⟨0, 0⟩ = true := by
  constructor
  · have hsims : localSims [[0]] [1] = [⟨0, 0⟩] := by
      simp [localSims, dotQ, sumSq]
    have htop : localTopIdx (localSims [[0]] [1]) ((none : Option ℤ).getD TOP_K_RESULTS) =
        [0] := by
      rw [hsims]
      unfold localTopIdx argsort
      norm_num [List.insertionSort, List.orderedInsert, pySliceFrom, TOP_K_RESULTS]
      rfl
    unfold localFindMostSimilar
    rw [if_neg (by simp), show genOne "q" = .ok [1] from rfl]
    dsimp only
    rw [if_pos (by rw [htop]; rfl), htop, hsims]
    rfl
  · simp [Sim.isNaN]

/-- C3 witness. -/
theorem c3_witness :
    -1 ≤ ((Sim.mk (dotQ [1] [1]) (sumSq [1] * sumSq [1])).dot : ℝ) /
        Real.sqrt ((Sim.mk (dotQ [1] [1]) (sumSq [1] * sumSq [1])).den2 : ℝ) ∧
    ((Sim.mk (dotQ [1] [1]) (sumSq [1] * sumSq [1])).dot : ℝ) /
        Real.sqrt ((Sim.mk (dotQ [1] [1]) (sumSq [1] * sumSq [1])).den2 : ℝ) ≤ 1 :=
  (c3_similarity_range_and_nan.1 [[1]] [1] ⟨dotQ [1] [1], sumSq [1] * sumSq [1]⟩
    (by simp [localSims])).1 (by simp [Sim.isNaN, sumSq])

end WebChatbot
